import Mathlib

/-!
Verification of the WalkSafe crash-map script (`418dataBas.py`).

The script is a linear pandas/folium pipeline:
`load_and_clean_data` (read CSV, strip column names, drop null coordinates,
range-filter, zero/null-filter) followed by `create_interactive_map`
(pedestrian filter, datetime parsing, severity tiers, time buckets,
composite address, marker rendering).

We embed the record-level semantics of that pipeline.  A table is a
`List CrashRow`; nullable cells (pandas `NaN`/`NaT`) are `Option`s; pandas
float comparisons are modelled over `ℚ` (all constants in the script are
exact decimals).  The `strptime` core of `pd.to_datetime(·, format=fmt)` is
kept abstract as an oracle parameter `String → String → Option ParsedDT`:
the claims about parsing concern the fill-only-still-null loop over the
fixed format list, not the calendar arithmetic itself.
-/

namespace WalkSafe

/-- One row of the source table, restricted to the columns the script
reads.  `none` models a pandas null cell (`NaN`).  `streetNo` is kept as
the string the value would print as, since the script immediately applies
`.astype(str)` to it. -/
structure CrashRow where
  latitude : Option ℚ
  longitude : Option ℚ
  firstCrashType : Option String
  crashDate : Option String
  mostSevereInjury : Option String
  injuriesTotal : Option ℤ
  damage : Option String
  streetNo : Option String
  streetDirection : Option String
  streetName : Option String
  postedSpeedLimit : Option ℤ
  weatherCondition : Option String
deriving DecidableEq, Repr

/-- Pandas `Series.between lo hi` (inclusive on both ends); a null cell
compares false. -/
def optBetween (x : Option ℚ) (lo hi : ℚ) : Bool :=
  match x with
  | some v => decide (lo ≤ v) && decide (v ≤ hi)
  | none => false

/-- Row predicate of `df.dropna(subset=['LATITUDE', 'LONGITUDE'])`
(line 12): both coordinates non-null. -/
def coordsNotNull (r : CrashRow) : Bool :=
  r.latitude.isSome && r.longitude.isSome

/-- Row predicate of lines 13-16: `LATITUDE.between(41.6, 42.1)` and
`LONGITUDE.between(-88.0, -87.5)`. -/
def inLatLonRange (r : CrashRow) : Bool :=
  optBetween r.latitude (41.6 : ℚ) (42.1 : ℚ) &&
    optBetween r.longitude (-88.0 : ℚ) (-87.5 : ℚ)

/-- Pandas `Series.isin([0, None])` for a float column: matches an exact
zero, and a null cell (pandas `isin` treats `None` as `NaN` and matches
`NaN` cells against it). -/
def isinZeroNone (x : Option ℚ) : Bool :=
  match x with
  | some v => decide (v = 0)
  | none => true

/-- Row predicate of line 17:
`~LATITUDE.isin([0, None]) & ~LONGITUDE.isin([0, None])`. -/
def coordsNotZeroNone (r : CrashRow) : Bool :=
  !(isinZeroNone r.latitude) && !(isinZeroNone r.longitude)

/-- Record-level semantics of `load_and_clean_data` (lines 6-17): drop
rows with a null coordinate, keep rows in the coordinate range box, then
drop rows whose coordinate is zero or null.  (Reading the CSV and
stripping column-name whitespace happen before the row level and are not
modelled; the input is the list of parsed rows.) -/
def load_and_clean_data (rows : List CrashRow) : List CrashRow :=
  (((rows.filter coordsNotNull).filter inLatLonRange).filter coordsNotZeroNone)

/-- The cleaner without its final zero/null filter: just `dropna` plus the
range filter (lines 12-16). -/
def cleanWithoutLastStep (rows : List CrashRow) : List CrashRow :=
  ((rows.filter coordsNotNull).filter inLatLonRange)

/-- Every row surviving the range filter has both coordinates present and
inside the box. -/
theorem inLatLonRange_spec {r : CrashRow} (h : inLatLonRange r = true) :
    ∃ la lo, r.latitude = some la ∧ r.longitude = some lo ∧
      (41.6 : ℚ) ≤ la ∧ la ≤ 42.1 ∧ (-88.0 : ℚ) ≤ lo ∧ lo ≤ -87.5 := by
  unfold inLatLonRange optBetween at h
  rcases hla : r.latitude with _ | la <;> rcases hlo : r.longitude with _ | lo <;>
    rw [hla, hlo] at h <;> simp at h
  exact ⟨la, lo, rfl, rfl, h.1.1, h.1.2, h.2.1, h.2.2⟩

/-- A coordinate inside the latitude box is neither zero nor null, so the
zero/null predicate of line 17 accepts every row the range filter kept. -/
theorem inLatLonRange_coordsNotZeroNone {r : CrashRow}
    (h : inLatLonRange r = true) : coordsNotZeroNone r = true := by
  obtain ⟨la, lo, hla, hlo, h1, _, _, h4⟩ := inLatLonRange_spec h
  unfold coordsNotZeroNone isinZeroNone
  rw [hla, hlo]
  simp only [Bool.and_eq_true, Bool.not_eq_true', decide_eq_false_iff_not]
  constructor
  · intro h0; rw [h0] at h1; norm_num at h1
  · intro h0; rw [h0] at h4; norm_num at h4

/-- Membership in the cleaner output yields all three row predicates. -/
theorem mem_load_and_clean {rows : List CrashRow} {r : CrashRow}
    (h : r ∈ load_and_clean_data rows) :
    coordsNotNull r = true ∧ inLatLonRange r = true ∧
      coordsNotZeroNone r = true := by
  unfold load_and_clean_data at h
  have h3 := List.mem_filter.mp h
  have h2 := List.mem_filter.mp h3.1
  have h1 := List.mem_filter.mp h2.1
  exact ⟨h1.2, h2.2, h3.2⟩

/-- Claim C1: every row retained by `load_and_clean_data` has a non-null
latitude in [41.6, 42.1] and a non-null longitude in [-88.0, -87.5], and
both coordinates are non-zero; equivalently, no row violating any of
these conditions is retained. -/
theorem cleaner_output_in_range (rows : List CrashRow) (r : CrashRow)
    (h : r ∈ load_and_clean_data rows) :
    ∃ la lo, r.latitude = some la ∧ r.longitude = some lo ∧
      (41.6 : ℚ) ≤ la ∧ la ≤ 42.1 ∧ (-88.0 : ℚ) ≤ lo ∧ lo ≤ -87.5 ∧
      la ≠ 0 ∧ lo ≠ 0 := by
  obtain ⟨-, hrange, -⟩ := mem_load_and_clean h
  obtain ⟨la, lo, hla, hlo, h1, h2, h3, h4⟩ := inLatLonRange_spec hrange
  refine ⟨la, lo, hla, hlo, h1, h2, h3, h4, ?_, ?_⟩
  · intro h0; rw [h0] at h1; norm_num at h1
  · intro h0; rw [h0] at h4; norm_num at h4

/-- Concrete scenario row: an in-range pedestrian fatality. -/
def scenarioRow1 : CrashRow :=
  { latitude := some (41.9 : ℚ), longitude := some (-87.6 : ℚ),
    firstCrashType := some "PEDESTRIAN", crashDate := none,
    mostSevereInjury := some "FATAL", injuriesTotal := none,
    damage := none, streetNo := none, streetDirection := none,
    streetName := none, postedSpeedLimit := none, weatherCondition := none }

/-- Concrete scenario row: a pedestrian crash at the (0, 0) origin. -/
def scenarioRow2 : CrashRow :=
  { latitude := some (0 : ℚ), longitude := some (0 : ℚ),
    firstCrashType := some "PEDESTRIAN", crashDate := none,
    mostSevereInjury := none, injuriesTotal := none,
    damage := none, streetNo := none, streetDirection := none,
    streetName := none, postedSpeedLimit := none, weatherCondition := none }

/-- Concrete scenario row: an in-range non-pedestrian crash. -/
def scenarioRow3 : CrashRow :=
  { latitude := some (41.7 : ℚ), longitude := some (-87.7 : ℚ),
    firstCrashType := some "VEHICLE", crashDate := none,
    mostSevereInjury := none, injuriesTotal := none,
    damage := none, streetNo := none, streetDirection := none,
    streetName := none, postedSpeedLimit := none, weatherCondition := none }

/-- Witness for C1: apply the range theorem to a concrete cleaned table. -/
theorem cleaner_output_in_range_witness :
    ∃ la lo, scenarioRow1.latitude = some la ∧
      scenarioRow1.longitude = some lo ∧
      (41.6 : ℚ) ≤ la ∧ la ≤ 42.1 ∧ (-88.0 : ℚ) ≤ lo ∧ lo ≤ -87.5 ∧
      la ≠ 0 ∧ lo ≠ 0 :=
  cleaner_output_in_range [scenarioRow1] scenarioRow1 (by
    norm_num [load_and_clean_data, coordsNotNull, inLatLonRange,
      coordsNotZeroNone, optBetween, isinZeroNone, scenarioRow1])

/-- Claim C7: the cleaner is idempotent — applying `load_and_clean_data`
to its own output returns the identical record list. -/
theorem cleaner_idempotent (rows : List CrashRow) :
    load_and_clean_data (load_and_clean_data rows) = load_and_clean_data rows := by
  have h1 : (load_and_clean_data rows).filter coordsNotNull =
      load_and_clean_data rows :=
    List.filter_eq_self.mpr (fun r hr => (mem_load_and_clean hr).1)
  have h2 : (load_and_clean_data rows).filter inLatLonRange =
      load_and_clean_data rows :=
    List.filter_eq_self.mpr (fun r hr => (mem_load_and_clean hr).2.1)
  have h3 : (load_and_clean_data rows).filter coordsNotZeroNone =
      load_and_clean_data rows :=
    List.filter_eq_self.mpr (fun r hr => (mem_load_and_clean hr).2.2)
  show (((load_and_clean_data rows).filter coordsNotNull).filter
      inLatLonRange).filter coordsNotZeroNone = load_and_clean_data rows
  rw [h1, h2, h3]

/-- Claim C8: the final zero/null coordinate filter of line 17 is a
no-op — on every input, the cleaner equals the cleaner without its last
step, because the range filter already forces non-null, non-zero
coordinates. -/
theorem zero_null_filter_noop (rows : List CrashRow) :
    load_and_clean_data rows = cleanWithoutLastStep rows := by
  unfold load_and_clean_data cleanWithoutLastStep
  exact List.filter_eq_self.mpr
    (fun r hr => inLatLonRange_coordsNotZeroNone (List.mem_filter.mp hr).2)

/-- Row predicate of the pedestrian filter (line 22):
`FIRST_CRASH_TYPE == 'PEDESTRIAN'` (case-exact; a null cell compares
false). -/
def isPedestrian (r : CrashRow) : Bool :=
  r.firstCrashType == some "PEDESTRIAN"

/-- `df[df['FIRST_CRASH_TYPE'] == 'PEDESTRIAN']` (line 22). -/
def pedestrianFilter (rows : List CrashRow) : List CrashRow :=
  rows.filter isPedestrian

/-- `np.select conditions choices (default := d)`: the value of the first
condition that holds, else the default (lines 42-49). -/
def npSelect {α : Type} : List (Bool × α) → α → α
  | [], d => d
  | (c, v) :: rest, d => if c then v else npSelect rest d

/-- Condition 1 of the severity table: `MOST_SEVERE_INJURY == 'FATAL'`
(line 43); a null cell compares false. -/
def sevCondFatal (r : CrashRow) : Bool :=
  r.mostSevereInjury == some "FATAL"

/-- Condition 2: `MOST_SEVERE_INJURY == 'INCAPACITATING INJURY'`
(line 44). -/
def sevCondIncap (r : CrashRow) : Bool :=
  r.mostSevereInjury == some "INCAPACITATING INJURY"

/-- Condition 3: `INJURIES_TOTAL > 0` (line 45); a null count compares
false. -/
def sevCondInjuries (r : CrashRow) : Bool :=
  match r.injuriesTotal with
  | some n => decide (0 < n)
  | none => false

/-- Condition 4: `DAMAGE == 'OVER $1,500'` (line 46). -/
def sevCondDamage (r : CrashRow) : Bool :=
  r.damage == some "OVER $1,500"

/-- `SEVERITY_TIER` assignment (lines 42-49): `np.select` over the four
ordered conditions with choices Fatal/Severe/Injury/Property Damage and
default Minor. -/
def severityTier (r : CrashRow) : String :=
  npSelect
    [(sevCondFatal r, "Fatal"), (sevCondIncap r, "Severe"),
     (sevCondInjuries r, "Injury"), (sevCondDamage r, "Property Damage")]
    "Minor"

/-- Claim C2: severity assignment is total and deterministic — every row
gets exactly one of the five labels, characterised first-true-wins over
the four ordered conditions, with default Minor, regardless of how many
conditions hold simultaneously. -/
theorem severity_first_match (r : CrashRow) :
    (severityTier r = "Fatal" ∨ severityTier r = "Severe" ∨
      severityTier r = "Injury" ∨ severityTier r = "Property Damage" ∨
      severityTier r = "Minor") ∧
    (severityTier r = "Fatal" ↔ sevCondFatal r = true) ∧
    (severityTier r = "Severe" ↔
      (sevCondFatal r = false ∧ sevCondIncap r = true)) ∧
    (severityTier r = "Injury" ↔
      (sevCondFatal r = false ∧ sevCondIncap r = false ∧
        sevCondInjuries r = true)) ∧
    (severityTier r = "Property Damage" ↔
      (sevCondFatal r = false ∧ sevCondIncap r = false ∧
        sevCondInjuries r = false ∧ sevCondDamage r = true)) ∧
    (severityTier r = "Minor" ↔
      (sevCondFatal r = false ∧ sevCondIncap r = false ∧
        sevCondInjuries r = false ∧ sevCondDamage r = false)) := by
  cases h1 : sevCondFatal r <;> cases h2 : sevCondIncap r <;>
    cases h3 : sevCondInjuries r <;> cases h4 : sevCondDamage r <;>
    simp [severityTier, npSelect, h1, h2, h3, h4]

/-- The `pd.cut(HOUR, bins := [0, 6, 12, 18, 24], labels)` step of
lines 57-62.  With pandas defaults the four bins are the right-closed
intervals (0,6], (6,12], (12,18] and (18,24]; a value in no bin (in
particular 0) gets a null bucket. -/
def hourCut (h : ℕ) : Option String :=
  if 0 < h ∧ h ≤ 6 then some "Night (12am-6am)"
  else if 6 < h ∧ h ≤ 12 then some "Morning (6am-12pm)"
  else if 12 < h ∧ h ≤ 18 then some "Afternoon (12pm-6pm)"
  else if 18 < h ∧ h ≤ 24 then some "Evening (6pm-12am)"
  else none

/-- `TIME_OF_DAY` (lines 54-63): `np.where(HOUR.isna(), 'Unknown',
pd.cut(...))` — the literal label for a null hour, otherwise the
`pd.cut` bucket (itself null when the hour falls in no bin). -/
def timeOfDay (hour : Option ℕ) : Option String :=
  match hour with
  | none => some "Unknown"
  | some h => hourCut h

/-- Counterexample to claim C3 (left-inclusive windows): `pd.cut` uses
right-closed bins, so hour 6 lands in Night, not Morning, and hour 0
lands in no bin at all (null bucket) instead of Night. -/
theorem timeOfDay_not_left_inclusive :
    timeOfDay (some 6) = some "Night (12am-6am)" ∧
    "Night (12am-6am)" ≠ "Morning (6am-12pm)" ∧
    timeOfDay (some 0) = none ∧
    (none : Option String) ≠ some "Night (12am-6am)" := by
  refine ⟨rfl, by decide, rfl, by decide⟩

/-- The bucket an hour in 1..24 receives under the right-closed reading
of the bins (this follows the amended spec wording, for comparison with
`timeOfDay` from the code). -/
def hourLabelRightClosed (h : ℕ) : String :=
  if h ≤ 6 then "Night (12am-6am)"
  else if h ≤ 12 then "Morning (6am-12pm)"
  else if h ≤ 18 then "Afternoon (12pm-6pm)"
  else "Evening (6pm-12am)"

/-- Claim C3 amended: a null hour maps to the literal label "Unknown";
hour 0 falls in no bin and gets a null bucket; every hour in 1..23 is
bucketed by the right-closed windows (0,6], (6,12], (12,18], (18,24]
labeled Night/Morning/Afternoon/Evening — so hour 6 gives Night, 12
Morning, 18 Afternoon, 23 Evening. -/
theorem timeOfDay_buckets (h : ℕ) (hge : 1 ≤ h) (hle : h ≤ 23) :
    timeOfDay none = some "Unknown" ∧
    timeOfDay (some 0) = none ∧
    timeOfDay (some h) = some (hourLabelRightClosed h) := by
  refine ⟨rfl, rfl, ?_⟩
  interval_cases h <;> rfl

/-- Witness for the amended C3 at hour 23 (an Evening hour). -/
theorem timeOfDay_buckets_witness :
    timeOfDay none = some "Unknown" ∧
    timeOfDay (some 0) = none ∧
    timeOfDay (some 23) = some (hourLabelRightClosed 23) :=
  timeOfDay_buckets 23 (by decide) (by decide)

/-- The fixed ordered format list of lines 25-30. -/
def datetime_formats : List String :=
  ["%Y-%m-%d %H:%M:%S", "%m/%d/%Y %I:%M:%S %p", "%Y-%m-%d", "%m/%d/%Y %H:%M"]

/-- One pass of the loop of lines 33-39 at a single row: only a
still-null cell is filled, by `pd.to_datetime(·, format := fmt,
errors := 'coerce')`, whose row-level core is the abstract oracle
`strptime fmt s`. -/
def fillStep {α : Type} (strptime : String → String → Option α)
    (s : String) (cur : Option α) (fmt : String) : Option α :=
  match cur with
  | some d => some d
  | none => strptime fmt s

/-- Row-level semantics of lines 32-39: start from `pd.NaT` and run the
fill-only-still-null pass over the format list in order. -/
def parseCrashDate {α : Type} (strptime : String → String → Option α)
    (s : String) : Option α :=
  datetime_formats.foldl (fillStep strptime s) none

/-- Claim C4: the datetime fill loop is first-successful-format-wins. A
string failing format #1 and matching format #2 parses to its format #2
value, and that value does not depend on the oracle's behaviour on
formats #3 and #4 (any oracle agreeing on formats #1 and #2 yields the
same result); a string matching no format keeps a null datetime. -/
theorem datetime_fill_order {α : Type}
    (strptime : String → String → Option α) (s : String) :
    (∀ d : α, strptime "%Y-%m-%d %H:%M:%S" s = none →
      strptime "%m/%d/%Y %I:%M:%S %p" s = some d →
      parseCrashDate strptime s = some d ∧
      ∀ g : String → String → Option α,
        g "%Y-%m-%d %H:%M:%S" s = none →
        g "%m/%d/%Y %I:%M:%S %p" s = some d →
        parseCrashDate g s = some d) ∧
    (strptime "%Y-%m-%d %H:%M:%S" s = none →
      strptime "%m/%d/%Y %I:%M:%S %p" s = none →
      strptime "%Y-%m-%d" s = none →
      strptime "%m/%d/%Y %H:%M" s = none →
      parseCrashDate strptime s = none) := by
  have hmain : ∀ (g : String → String → Option α) (d : α),
      g "%Y-%m-%d %H:%M:%S" s = none →
      g "%m/%d/%Y %I:%M:%S %p" s = some d →
      parseCrashDate g s = some d := by
    intro g d hg1 hg2
    simp [parseCrashDate, datetime_formats, fillStep, hg1, hg2]
  constructor
  · intro d h1 h2
    exact ⟨hmain strptime d h1 h2, fun g hg1 hg2 => hmain g d hg1 hg2⟩
  · intro h1 h2 h3 h4
    simp [parseCrashDate, datetime_formats, fillStep, h1, h2, h3, h4]

/-- Concrete oracle for the witness: succeeds exactly on format #2 at one
fixed string. -/
def strptimeFmt2Only : String → String → Option ℕ :=
  fun fmt s =>
    if (fmt == "%m/%d/%Y %I:%M:%S %p") && (s == "03/31/2025 04:05:06 PM")
    then some 7 else none

/-- Witness for C4 at a concrete oracle and date string. -/
theorem datetime_fill_order_witness :
    parseCrashDate strptimeFmt2Only "03/31/2025 04:05:06 PM" = some 7 :=
  ((datetime_fill_order strptimeFmt2Only "03/31/2025 04:05:06 PM").1
    7 rfl rfl).1

/-- A successfully parsed crash datetime, with the accessors the script
uses: `.dt.hour`, `.dt.day_name()` and `.strftime('%Y-%m-%d')`-style
date components.  Calendar arithmetic itself stays inside the abstract
`strptime` oracle. -/
structure ParsedDT where
  year : ℕ
  month : ℕ
  day : ℕ
  hour : ℕ
  dayName : String
deriving DecidableEq, Repr

/-- Zero-padding to two digits, as `%m`/`%d` render. -/
def pad2 (n : ℕ) : String :=
  if n < 10 then "0" ++ toString n else toString n

/-- Zero-padding to four digits, as `%Y` renders. -/
def pad4 (n : ℕ) : String :=
  if n < 10 then "000" ++ toString n
  else if n < 100 then "00" ++ toString n
  else if n < 1000 then "0" ++ toString n
  else toString n

/-- `dt.strftime('%Y-%m-%d')` (line 107). -/
def strftimeYmd (d : ParsedDT) : String :=
  pad4 d.year ++ "-" ++ pad2 d.month ++ "-" ++ pad2 d.day

/-- `CRASH_DATETIME` for one row: null date cells stay `NaT`, otherwise
the format-list fill loop runs on the date string. -/
def parsedCrashDT (strptime : String → String → Option ParsedDT)
    (c : CrashRow) : Option ParsedDT :=
  match c.crashDate with
  | none => none
  | some s => parseCrashDate strptime s

/-- Pandas `+` on object-dtype string columns: null cells propagate
(`'a' + NaN` is `NaN`), a step of lines 66-70. -/
def strAdd : Option String → Option String → Option String
  | some a, some b => some (a ++ b)
  | _, _ => none

/-- `Series.astype(str)` on one cell: total, a null cell becomes the
literal string "nan". -/
def astypeStr : Option String → String
  | some s => s
  | none => "nan"

/-- `FULL_ADDRESS` (lines 66-70):
`STREET_NO.astype(str) + ' ' + STREET_DIRECTION + ' ' + STREET_NAME`. -/
def fullAddress (no dir name : Option String) : Option String :=
  strAdd (strAdd (strAdd (strAdd (some (astypeStr no)) (some " ")) dir)
    (some " ")) name

/-- One row after the enrichment steps of lines 22-70. -/
structure EnrichedRow where
  latitude : Option ℚ
  longitude : Option ℚ
  crashDatetime : Option ParsedDT
  severityTier : String
  dayOfWeek : Option String
  hour : Option ℕ
  timeOfDay : Option String
  injuriesTotal : Option ℤ
  postedSpeedLimit : Option ℤ
  weatherCondition : Option String
  fullAddress : Option String
deriving DecidableEq, Repr

/-- Per-row enrichment (lines 32-70): parsed datetime, severity tier,
day-of-week and hour (null when the datetime is null), time-of-day
bucket, composite address; the raw display columns are carried along. -/
def enrichRow (strptime : String → String → Option ParsedDT)
    (c : CrashRow) : EnrichedRow :=
  let dt := parsedCrashDT strptime c
  { latitude := c.latitude, longitude := c.longitude,
    crashDatetime := dt,
    severityTier := severityTier c,
    dayOfWeek := dt.map ParsedDT.dayName,
    hour := dt.map ParsedDT.hour,
    timeOfDay := timeOfDay (dt.map ParsedDT.hour),
    injuriesTotal := c.injuriesTotal,
    postedSpeedLimit := c.postedSpeedLimit,
    weatherCondition := c.weatherCondition,
    fullAddress := fullAddress c.streetNo c.streetDirection c.streetName }

/-- Popup date field (line 107): `strftime('%Y-%m-%d')` when the
datetime is non-null, else the literal "N/A". -/
def dateDisplay (r : EnrichedRow) : String :=
  match r.crashDatetime with
  | some d => strftimeYmd d
  | none => "N/A"

/-- Popup day field (line 108): the day name when non-null, else the
literal "Unknown". -/
def dayDisplay (r : EnrichedRow) : String :=
  r.dayOfWeek.getD "Unknown"

/-- Popup time field (line 109): the time-of-day bucket when non-null,
else the literal "Unknown". -/
def timeDisplay (r : EnrichedRow) : String :=
  r.timeOfDay.getD "Unknown"

/-- Popup injuries field (line 115): `row.get('INJURIES_TOTAL', 0)`.
`Series.get` falls back only when the label is missing; the column is
read at line 45, so the label is always present and the cell itself is
returned — the f-string formats a NaN cell as the literal "nan", and
the 0 default is dead code. -/
def injuriesDisplay (r : EnrichedRow) : String :=
  match r.injuriesTotal with
  | some n => toString n
  | none => "nan"

/-- Popup speed-limit field (line 116):
`row.get('POSTED_SPEED_LIMIT', 'N/A')`.  The column is part of the
source table, so the label is present and a NaN cell is returned as is
and rendered "nan"; the 'N/A' default is dead code. -/
def speedDisplay (r : EnrichedRow) : String :=
  match r.postedSpeedLimit with
  | some n => toString n
  | none => "nan"

/-- Popup weather field (line 117):
`row.get('WEATHER_CONDITION', 'N/A')`.  The column is part of the
source table, so a NaN cell is returned as is and rendered "nan"; the
'N/A' default is dead code. -/
def weatherDisplay (r : EnrichedRow) : String :=
  r.weatherCondition.getD "nan"

/-- Popup address field (line 118): `row.get('FULL_ADDRESS', 'N/A')`.
`FULL_ADDRESS` is always created at line 66, so the label is present
and a null composite is returned as is and rendered "nan"; the 'N/A'
default is dead code. -/
def addressDisplay (r : EnrichedRow) : String :=
  r.fullAddress.getD "nan"

/-- The popup rich text of lines 111-119. -/
def popupHtml (r : EnrichedRow) : String :=
  "<b>Severity:</b> " ++ r.severityTier ++
  "<br><b>Date:</b> " ++ dateDisplay r ++
  "<br><b>Time:</b> " ++ timeDisplay r ++ " (" ++ dayDisplay r ++ ")" ++
  "<br><b>Injuries:</b> " ++ injuriesDisplay r ++
  "<br><b>Speed Limit:</b> " ++ speedDisplay r ++ " mph" ++
  "<br><b>Weather:</b> " ++ weatherDisplay r ++
  "<br><b>Address:</b> " ++ addressDisplay r

/-- The fixed severity → (color, size) style table of lines 88-94. -/
def severity_style : List (String × String × ℕ) :=
  [("Fatal", ("#d62728", 8)), ("Severe", ("#ff7f0e", 6)),
   ("Injury", ("#1f77b4", 5)), ("Property Damage", ("#2ca02c", 4)),
   ("Minor", ("#7f7f7f", 3))]

/-- The fixed severity → cluster-group-name table of lines 97-103. -/
def severity_clusters : List (String × String) :=
  [("Fatal", "Fatal Accidents"), ("Severe", "Severe Accidents"),
   ("Injury", "Injury Accidents"), ("Property Damage", "Property Damage"),
   ("Minor", "Minor Accidents")]

/-- `severity_style[tier]`: dictionary lookup; `none` models the
`KeyError` the script would raise on an unknown tier. -/
def styleLookup (tier : String) : Option (String × ℕ) :=
  (severity_style.find? (fun e => e.1 == tier)).map Prod.snd

/-- One rendered circle marker (lines 121-130) and the cluster group it
is added to (line 130, keyed by the severity tier). -/
structure Marker where
  location : Option ℚ × Option ℚ
  radius : ℕ
  color : String
  fill : Bool
  popup : String
  tooltip : String
  cluster : String
deriving DecidableEq, Repr

/-- Building the marker for one enriched row (lines 106-130): `none`
models the `KeyError` path of an unknown severity tier. -/
def buildMarker (r : EnrichedRow) : Option Marker :=
  match styleLookup r.severityTier with
  | none => none
  | some st =>
    some { location := (r.latitude, r.longitude),
           radius := st.2, color := st.1, fill := true,
           popup := popupHtml r,
           tooltip := r.severityTier ++ " accident at " ++ timeDisplay r,
           cluster := r.severityTier }

/-- The marker loop of `create_interactive_map` over a cleaned table:
pedestrian filter, per-row enrichment, one marker per row. -/
def createMarkers (strptime : String → String → Option ParsedDT)
    (df : List CrashRow) : List (Option Marker) :=
  ((pedestrianFilter df).map (enrichRow strptime)).map buildMarker

/-- Every tier `severityTier` can produce has an entry in the style
table, so the style lookup never takes the `KeyError` path. -/
theorem styleLookup_severityTier (c : CrashRow) :
    (styleLookup (severityTier c)).isSome = true := by
  cases h1 : sevCondFatal c <;> cases h2 : sevCondIncap c <;>
    cases h3 : sevCondInjuries c <;> cases h4 : sevCondDamage c <;>
    simp only [severityTier, npSelect, h1, h2, h3, h4, if_true,
      if_false, Bool.false_eq_true, Bool.true_eq_false] <;> decide

/-- A fully empty raw row: every cell null. -/
def emptyRow : CrashRow :=
  { latitude := none, longitude := none, firstCrashType := none,
    crashDate := none, mostSevereInjury := none, injuriesTotal := none,
    damage := none, streetNo := none, streetDirection := none,
    streetName := none, postedSpeedLimit := none, weatherCondition := none }

/-- An oracle under which no date string parses. -/
def strptimeNone : String → String → Option ParsedDT := fun _ _ => none

/-- Counterexample to claim C5 as stated: on a row with every optional
field absent, the injuries popup field shows "nan" (the NaN cell is
returned by `row.get` because the label is present, and the f-string
formats it) and the time popup field shows "Unknown" — neither is the
claimed literal placeholder "N/A". -/
theorem popup_placeholder_cex :
    injuriesDisplay (enrichRow strptimeNone emptyRow) = "nan" ∧
    injuriesDisplay (enrichRow strptimeNone emptyRow) ≠ "N/A" ∧
    timeDisplay (enrichRow strptimeNone emptyRow) = "Unknown" ∧
    timeDisplay (enrichRow strptimeNone emptyRow) ≠ "N/A" := by
  refine ⟨rfl, by decide, rfl, by decide⟩

/-- Claim C5 amended: rendering is total — every enriched row produces a
marker, even with all optional fields missing — but the only field
substituted with "N/A" when missing is the date (its `pd.notnull` check
at line 107); day and time fall back to the literal "Unknown" (lines
108-109); a null injury count, speed limit, weather or composite
address renders as the string "nan", because those columns are always
present, so the `row.get` defaults never fire and the NaN cell itself
is formatted. -/
theorem render_missing_fields (strptime : String → String → Option ParsedDT)
    (c : CrashRow) :
    (buildMarker (enrichRow strptime c)).isSome = true ∧
    (parsedCrashDT strptime c = none →
      dateDisplay (enrichRow strptime c) = "N/A" ∧
      dayDisplay (enrichRow strptime c) = "Unknown" ∧
      timeDisplay (enrichRow strptime c) = "Unknown") ∧
    (c.injuriesTotal = none →
      injuriesDisplay (enrichRow strptime c) = "nan") ∧
    (c.postedSpeedLimit = none →
      speedDisplay (enrichRow strptime c) = "nan") ∧
    (c.weatherCondition = none →
      weatherDisplay (enrichRow strptime c) = "nan") ∧
    (c.streetDirection = none →
      addressDisplay (enrichRow strptime c) = "nan") := by
  refine ⟨?_, ?_, ?_, ?_, ?_, ?_⟩
  · have h := styleLookup_severityTier c
    rw [Option.isSome_iff_exists] at h
    obtain ⟨st, hst⟩ := h
    simp [buildMarker, enrichRow, hst]
  · intro h
    simp [dateDisplay, dayDisplay, timeDisplay, enrichRow, h, timeOfDay]
  · intro h
    simp [injuriesDisplay, enrichRow, h]
  · intro h
    simp [speedDisplay, enrichRow, h]
  · intro h
    simp [weatherDisplay, enrichRow, h]
  · intro h
    simp [addressDisplay, enrichRow, fullAddress, h, strAdd]

/-- Witness for the amended C5 on the all-null row: a marker is still
produced and every fallback fires. -/
theorem render_missing_fields_witness :
    (buildMarker (enrichRow strptimeNone emptyRow)).isSome = true ∧
    dateDisplay (enrichRow strptimeNone emptyRow) = "N/A" ∧
    speedDisplay (enrichRow strptimeNone emptyRow) = "nan" ∧
    weatherDisplay (enrichRow strptimeNone emptyRow) = "nan" ∧
    addressDisplay (enrichRow strptimeNone emptyRow) = "nan" :=
  ⟨(render_missing_fields strptimeNone emptyRow).1,
   ((render_missing_fields strptimeNone emptyRow).2.1 rfl).1,
   (render_missing_fields strptimeNone emptyRow).2.2.2.1 rfl,
   (render_missing_fields strptimeNone emptyRow).2.2.2.2.1 rfl,
   (render_missing_fields strptimeNone emptyRow).2.2.2.2.2 rfl⟩

/-- Counterexample to claim C6 as stated: with a null street direction
the composite address is null (pandas string addition propagates the
null), not a string in which the missing component appears as its
stringified null representation. -/
theorem address_null_direction_cex :
    fullAddress (some "1242") none (some "MADISON") = none ∧
    fullAddress (some "1242") none (some "MADISON") ≠
      some "1242 nan MADISON" := by
  refine ⟨rfl, by decide⟩

/-- Claim C6 amended: when direction and name are present the composite
address is the three components joined by single spaces, with a missing
street number stringifying as "nan" (via `.astype(str)`); but a missing
direction or name makes the whole composite null. -/
theorem full_address_spec (no dir name : Option String) :
    (∀ d n, dir = some d → name = some n →
      fullAddress no dir name =
        some (astypeStr no ++ " " ++ d ++ " " ++ n)) ∧
    (no = none → astypeStr no = "nan") ∧
    (dir = none → fullAddress no dir name = none) ∧
    (name = none → fullAddress no dir name = none) := by
  refine ⟨?_, ?_, ?_, ?_⟩
  · intro d n hd hn
    simp [fullAddress, strAdd, hd, hn, String.append_assoc]
  · intro h; rw [h]; rfl
  · intro h
    cases name <;> simp [fullAddress, strAdd, h]
  · intro h
    simp [fullAddress, strAdd, h]

/-- Witness for the amended C6: a null street number stringifies as
"nan" inside the joined address when direction and name are present. -/
theorem full_address_spec_witness :
    fullAddress none (some "W") (some "MADISON") =
      some (astypeStr none ++ " " ++ "W" ++ " " ++ "MADISON") ∧
    astypeStr (none : Option String) = "nan" :=
  ⟨(full_address_spec none (some "W") (some "MADISON")).1
      "W" "MADISON" rfl rfl,
   (full_address_spec none (some "W") (some "MADISON")).2.1 rfl⟩

/-- Record-level semantics of `create_interactive_map` (lines 19-207).
Line 22 takes an explicit `.copy()` of the pedestrian selection and all
enrichment columns are written to that copy only, so the pair returned
here carries the caller's table unchanged in its first component and the
rendered markers in its second. -/
def create_interactive_map (strptime : String → String → Option ParsedDT)
    (df : List CrashRow) : List CrashRow × List (Option Marker) :=
  let pedestrian := pedestrianFilter df
  (df, (pedestrian.map (enrichRow strptime)).map buildMarker)

/-- Claim C9: on the three-row scenario table, cleaning keeps rows 1 and
3 and drops the (0, 0) row, the case-exact pedestrian filter keeps only
row 1, and rendering places exactly one marker, assigned to the Fatal
cluster group with the fixed fatal color. -/
theorem end_to_end_scenario (strptime : String → String → Option ParsedDT) :
    load_and_clean_data [scenarioRow1, scenarioRow2, scenarioRow3] =
      [scenarioRow1, scenarioRow3] ∧
    pedestrianFilter
      (load_and_clean_data [scenarioRow1, scenarioRow2, scenarioRow3]) =
      [scenarioRow1] ∧
    ∃ m : Marker,
      buildMarker (enrichRow strptime scenarioRow1) = some m ∧
      createMarkers strptime
        (load_and_clean_data [scenarioRow1, scenarioRow2, scenarioRow3]) =
        [some m] ∧
      m.cluster = "Fatal" ∧ m.color = "#d62728" := by
  have h1 : load_and_clean_data [scenarioRow1, scenarioRow2, scenarioRow3] =
      [scenarioRow1, scenarioRow3] := by
    norm_num [load_and_clean_data, coordsNotNull, inLatLonRange,
      coordsNotZeroNone, optBetween, isinZeroNone, scenarioRow1,
      scenarioRow2, scenarioRow3]
  refine ⟨h1, ?_, ?_⟩
  · rw [h1]
    rfl
  · rw [h1]
    exact ⟨_, rfl, rfl, rfl, rfl⟩

/-- Claim C10: the renderer does not mutate its input — after the call
the caller's record set is unchanged (the enrichment columns are only
written to the internal `.copy()` taken at line 22), and the markers are
computed from that copy. -/
theorem renderer_preserves_input (strptime : String → String → Option ParsedDT)
    (df : List CrashRow) :
    (create_interactive_map strptime df).1 = df ∧
    (create_interactive_map strptime df).2 = createMarkers strptime df :=
  ⟨rfl, rfl⟩

end WalkSafe
